import Mathlib

/- Verification development for the OR-Adani production/transport planning
   system.  The repository ships the Streamlit UI layer (src/ui) and helper
   scripts; the optimization backend (solver orchestrator, model builders,
   scenario generator, result extraction) is referenced from the UI but its
   files are not part of the source tree, so those components are modelled
   from the specification.  Everything taken from files that are present is
   embedded directly from the source. -/

namespace ORAdani

/-- Modelled from the spec (section 4.3): the five-way classification of a
solver termination condition. -/
inductive TermCond where
  | Optimal
  | FeasibleSuboptimal
  | Infeasible
  | Unbounded
  | SolverError
deriving DecidableEq, Repr

/-- Modelled from the spec (section 4.3): the Outcome record returned by the
solver orchestrator.  Floats are modelled as rationals. -/
structure Outcome where
  ok : Bool
  message : String
  solver_used : String
  termination_condition : TermCond
  runtime_seconds : Option ℚ
  solver_log_path : Option String
deriving DecidableEq, Repr

/-- Modelled from the spec: solver configuration (solver name, time limit,
optional gap) together with the secondary configured fallback solver that
section 4.3 step 3 refers to. -/
structure SolverConfig where
  solver_name : String
  fallback_solver : String
  time_limit_seconds : ℕ
  mip_gap : Option ℚ
deriving DecidableEq, Repr

/-- Modelled from the spec: the raw behaviour of one external solver attempt.
A time limit may be hit with or without a valid incumbent; the solver may be
completely unavailable, or its invocation may raise an exception. -/
inductive RawAttempt where
  | optimal
  | timeLimit (hasIncumbent : Bool)
  | infeasible
  | unbounded
  | solverFail
  | unavailable
  | crash
deriving DecidableEq, Repr

/-- Modelled from the spec (sections 4.3 and 5): classify a raw attempt.
Unavailability and a raised exception surface as errors of the inner call;
a time limit hit without an incumbent is treated as SolverError. -/
def classifyAttempt : RawAttempt → Except String TermCond
  | .optimal => .ok .Optimal
  | .timeLimit true => .ok .FeasibleSuboptimal
  | .timeLimit false => .ok .SolverError
  | .infeasible => .ok .Infeasible
  | .unbounded => .ok .Unbounded
  | .solverFail => .ok .SolverError
  | .unavailable => .error "requested solver is not available"
  | .crash => .error "solver invocation raised an exception"

/-- Modelled from the spec: whether a termination condition counts as a
usable result.  Only Optimal and FeasibleSuboptimal (which in this model is
only ever produced together with a valid incumbent) are ok. -/
def okOf : TermCond → Bool
  | .Optimal => true
  | .FeasibleSuboptimal => true
  | .Infeasible => false
  | .Unbounded => false
  | .SolverError => false

/-- Modelled from the spec (section 7): a specific human-readable message per
termination condition, distinguishing the failure families. -/
def messageOf : TermCond → String
  | .Optimal => "Optimal solution found"
  | .FeasibleSuboptimal => "Feasible solution found within the time or gap limit"
  | .Infeasible => "No feasible plan under current demand"
  | .Unbounded => "Model is unbounded; check cost configuration"
  | .SolverError => "Solver unavailable or misconfigured"

/-- Modelled from the spec: one guarded solver attempt.  Errors of the inner
call (unavailability, raised exception) are caught and reported as the
SolverError termination condition instead of propagating. -/
def runAttempt (env : String → RawAttempt) (name : String) : TermCond :=
  match classifyAttempt (env name) with
  | .ok tc => tc
  | .error _ => .SolverError

/-- Modelled from the spec: assemble the Outcome record for one attempt. -/
def mkOutcome (name : String) (tc : TermCond) : Outcome :=
  ⟨okOf tc, messageOf tc, name, tc, none, none⟩

/-- Modelled from the spec (section 4.3): the solver orchestrator.  The
environment maps each solver name to its raw behaviour.  On SolverError the
orchestrator retries exactly once with the configured fallback solver.  The
second component records the list of solvers attempted, in order. -/
def solve_model (env : String → RawAttempt) (cfg : SolverConfig) :
    Outcome × List String :=
  let tc1 := runAttempt env cfg.solver_name
  if tc1 = .SolverError then
    let tc2 := runAttempt env cfg.fallback_solver
    (mkOutcome cfg.fallback_solver tc2, [cfg.solver_name, cfg.fallback_solver])
  else
    (mkOutcome cfg.solver_name tc1, [cfg.solver_name])

/-- Modelled from the spec (section 4.1): a demand scenario record, mirroring
the DemandScenario dataclass imported by the UI. -/
structure DemandScenario where
  name : String
  probability : ℚ
  demand_multiplier : ℚ
deriving DecidableEq, Repr

/-- Modelled from the spec (section 4.1): output of the scenario generator,
preserving scenario order, with the probability vector indexed identically to
the per-scenario demand series. -/
structure ScenarioData where
  names : List String
  probability : List ℚ
  series : List (List ℚ)
deriving DecidableEq, Repr

/-- The probability tolerance 1e-6 from the spec, as an exact rational. -/
def probTol : ℚ := 1 / 1000000

/-- Absolute value on the rationals, written so that it evaluates. -/
def ratAbs (q : ℚ) : ℚ := if q < 0 then -q else q

/-- Modelled from the spec (section 4.1): generate_demand_scenarios.  Fails
with a ConfigurationError when the probabilities do not sum to 1 within the
tolerance or when some demand multiplier is negative; otherwise multiplies the
base demand series by each multiplier.  A zero-scenario set has probability
sum 0 and is rejected by the first check. -/
def generate_demand_scenarios (base : List ℚ) (scens : List DemandScenario) :
    Except String ScenarioData :=
  let total := (scens.map (fun s => s.probability)).sum
  if probTol < ratAbs (total - 1) then
    .error "ConfigurationError: scenario probabilities must sum to 1"
  else if scens.any (fun s => s.demand_multiplier < 0) then
    .error "ConfigurationError: demand multipliers must be non-negative"
  else
    .ok ⟨scens.map (fun s => s.name),
         scens.map (fun s => s.probability),
         scens.map (fun s => base.map (fun q => s.demand_multiplier * q))⟩

/-- Whether an Except value is a success. -/
def exceptOk {ε α : Type} : Except ε α → Bool
  | .ok _ => true
  | .error _ => false

/-- Modelled from the spec (section 3): normalized Planning Data.  Plants,
periods and lanes are indexed by Fin; costs, capacities, demand and the
shortfall penalty weight are rationals. -/
structure PlanningData where
  nPlants : ℕ
  nPeriods : ℕ
  nLanes : ℕ
  laneOrigin : Fin nLanes → Fin nPlants
  laneDest : Fin nLanes → Fin nPlants
  prodCost : Fin nPlants → ℚ
  capacity : Fin nPlants → ℚ
  initInv : Fin nPlants → ℚ
  holdCost : Fin nPlants → ℚ
  transCost : Fin nLanes → ℚ
  laneCap : Fin nLanes → Option ℚ
  demand : Fin nPeriods → ℚ
  penalty : ℚ

/-- Modelled from the spec (section 3): one assignment of the decision
variables of the deterministic formulation. -/
structure Plan (d : PlanningData) where
  production : Fin d.nPlants → Fin d.nPeriods → ℚ
  shipment : Fin d.nLanes → Fin d.nPeriods → ℚ
  inventory : Fin d.nPlants → Fin d.nPeriods → ℚ
  served : Fin d.nPlants → Fin d.nPeriods → ℚ
  shortfall : Fin d.nPeriods → ℚ

/-- End-of-previous-period stock: the initial inventory in the first period,
the previous inventory variable afterwards. -/
def prevInv (d : PlanningData) (x : Plan d) (p : Fin d.nPlants)
    (t : Fin d.nPeriods) : ℚ :=
  if (t : ℕ) = 0 then d.initInv p
  else x.inventory p ⟨(t : ℕ) - 1, Nat.lt_of_le_of_lt (Nat.sub_le _ _) t.isLt⟩

/-- Total inbound shipments into plant p in period t. -/
def inboundAt (d : PlanningData) (x : Plan d) (p : Fin d.nPlants)
    (t : Fin d.nPeriods) : ℚ :=
  ∑ l : Fin d.nLanes, if d.laneDest l = p then x.shipment l t else 0

/-- Total outbound shipments out of plant p in period t. -/
def outboundAt (d : PlanningData) (x : Plan d) (p : Fin d.nPlants)
    (t : Fin d.nPeriods) : ℚ :=
  ∑ l : Fin d.nLanes, if d.laneOrigin l = p then x.shipment l t else 0

/-- Modelled from the spec (section 3 invariants): feasibility of a plan for
a given demand series — inventory balance every period, production within
capacity, shipments within lane capacity where defined, all quantities
non-negative, and served demand plus shortfall equal to demand. -/
def FeasibleFor (d : PlanningData) (dem : Fin d.nPeriods → ℚ) (x : Plan d) :
    Prop :=
  (∀ p t, x.inventory p t =
      prevInv d x p t + x.production p t + inboundAt d x p t
        - outboundAt d x p t - x.served p t)
  ∧ (∀ p t, x.production p t ≤ d.capacity p)
  ∧ (∀ l t, ∀ c ∈ d.laneCap l, x.shipment l t ≤ c)
  ∧ (∀ p t, 0 ≤ x.production p t)
  ∧ (∀ l t, 0 ≤ x.shipment l t)
  ∧ (∀ p t, 0 ≤ x.inventory p t)
  ∧ (∀ p t, 0 ≤ x.served p t)
  ∧ (∀ t, 0 ≤ x.shortfall t)
  ∧ (∀ t, (∑ p, x.served p t) + x.shortfall t = dem t)

/-- Production cost term of the objective, re-evaluated at the variables. -/
def productionCostOf (d : PlanningData) (x : Plan d) : ℚ :=
  ∑ p, ∑ t, d.prodCost p * x.production p t

/-- Transport cost term of the objective, re-evaluated at the variables. -/
def transportCostOf (d : PlanningData) (x : Plan d) : ℚ :=
  ∑ l, ∑ t, d.transCost l * x.shipment l t

/-- Holding cost term of the objective, re-evaluated at the variables. -/
def holdingCostOf (d : PlanningData) (x : Plan d) : ℚ :=
  ∑ p, ∑ t, d.holdCost p * x.inventory p t

/-- Shortfall penalty term of the objective. -/
def penaltyCostOf (d : PlanningData) (x : Plan d) : ℚ :=
  d.penalty * ∑ t, x.shortfall t

/-- Modelled from the spec (section 4.2a): total cost of a plan. -/
def planCost (d : PlanningData) (x : Plan d) : ℚ :=
  productionCostOf d x + transportCostOf d x + holdingCostOf d x
    + penaltyCostOf d x

/-- Feasibility for the deterministic formulation (base demand series). -/
def detFeasible (d : PlanningData) (x : Plan d) : Prop :=
  FeasibleFor d d.demand x

/-- Optimality for a given demand series. -/
def optimalFor (d : PlanningData) (dem : Fin d.nPeriods → ℚ) (x : Plan d) :
    Prop :=
  FeasibleFor d dem x ∧ ∀ y, FeasibleFor d dem y → planCost d x ≤ planCost d y

/-- Modelled from the spec (section 4.2b): decision variables of the
stochastic and robust formulations — here-and-now production and shipment
shared across scenarios, scenario-indexed inventory, served demand and
shortfall recourse. -/
structure ScenPlan (d : PlanningData) (S : ℕ) where
  production : Fin d.nPlants → Fin d.nPeriods → ℚ
  shipment : Fin d.nLanes → Fin d.nPeriods → ℚ
  inventory : Fin S → Fin d.nPlants → Fin d.nPeriods → ℚ
  served : Fin S → Fin d.nPlants → Fin d.nPeriods → ℚ
  shortfall : Fin S → Fin d.nPeriods → ℚ

/-- The single-scenario projection of a scenario plan. -/
def toPlan {d : PlanningData} {S : ℕ} (x : ScenPlan d S) (s : Fin S) :
    Plan d :=
  ⟨x.production, x.shipment, x.inventory s, x.served s, x.shortfall s⟩

/-- Demand series of scenario s: the base series scaled by the multiplier. -/
def scenDemand (d : PlanningData) {S : ℕ} (mult : Fin S → ℚ) (s : Fin S) :
    Fin d.nPeriods → ℚ :=
  fun t => mult s * d.demand t

/-- Modelled from the spec (sections 4.2b and 4.2c): scenario feasibility —
inventory balance and shortfall are evaluated per scenario using that
scenario demand. -/
def scenFeasible (d : PlanningData) {S : ℕ} (mult : Fin S → ℚ)
    (x : ScenPlan d S) : Prop :=
  ∀ s, FeasibleFor d (scenDemand d mult s) (toPlan x s)

/-- Realized cost of a scenario plan under scenario s. -/
def costUnder (d : PlanningData) {S : ℕ} (x : ScenPlan d S) (s : Fin S) : ℚ :=
  planCost d (toPlan x s)

/-- Modelled from the spec (section 4.2b): the stochastic expected-cost
objective. -/
def stochCost (d : PlanningData) {S : ℕ} (prob : Fin S → ℚ)
    (x : ScenPlan d S) : ℚ :=
  ∑ s, prob s * costUnder d x s

/-- Optimality for the stochastic formulation. -/
def stochOptimal (d : PlanningData) {S : ℕ} (prob mult : Fin S → ℚ)
    (x : ScenPlan d S) : Prop :=
  scenFeasible d mult x
    ∧ ∀ y, scenFeasible d mult y → stochCost d prob x ≤ stochCost d prob y

/-- Modelled from the spec (section 4.2c): feasibility of the robust
formulation — a scenario plan plus an auxiliary WorstCaseCost scalar bounded
below by the realized cost in every scenario. -/
def robustFeasible (d : PlanningData) {S : ℕ} (mult : Fin S → ℚ)
    (x : ScenPlan d S) (w : ℚ) : Prop :=
  scenFeasible d mult x ∧ ∀ s, costUnder d x s ≤ w

/-- Optimality for the robust formulation: the WorstCaseCost scalar is the
objective being minimized. -/
def robustOptimal (d : PlanningData) {S : ℕ} (mult : Fin S → ℚ)
    (x : ScenPlan d S) (w : ℚ) : Prop :=
  robustFeasible d mult x w
    ∧ ∀ y w2, robustFeasible d mult y w2 → w ≤ w2

/-- Modelled from the spec (section 8): a classifier of the deterministic
model is sound when it reports Infeasible only if the model really has no
feasible point.  Any faithful external solver satisfies this. -/
def InfeasibleSound (rep : PlanningData → TermCond) : Prop :=
  ∀ d, rep d = .Infeasible → ¬∃ x, detFeasible d x

/-- Modelled from the spec (section 4.4): one production table row. -/
structure ProductionRow where
  plant : String
  period : String
  production : ℚ
deriving DecidableEq, Repr

/-- Modelled from the spec (section 4.4): one transport table row; trips are
derived from the shipment volume and a configured unit-load size, rounded
up. -/
structure TransportRow where
  origin : String
  destination : String
  mode : String
  period : String
  shipment : ℚ
  trips : ℤ
deriving DecidableEq, Repr

/-- Modelled from the spec (section 4.4): one inventory table row. -/
structure InventoryRow where
  plant : String
  period : String
  inventory : ℚ
deriving DecidableEq, Repr

/-- Modelled from the spec (section 4.4): the cost breakdown mapping, with
exactly the four components, each re-evaluated at the solved variables. -/
def cost_breakdown (d : PlanningData) (x : Plan d) : List (String × ℚ) :=
  [("production", productionCostOf d x),
   ("transport", transportCostOf d x),
   ("holding", holdingCostOf d x),
   ("demand_penalty", penaltyCostOf d x)]

/-- Modelled from the spec (section 4.4): production rows, one per plant and
period. -/
def production_rows (d : PlanningData) (plantName : Fin d.nPlants → String)
    (periodName : Fin d.nPeriods → String) (x : Plan d) :
    List ProductionRow :=
  (List.finRange d.nPlants).flatMap fun p =>
    (List.finRange d.nPeriods).map fun t =>
      ⟨plantName p, periodName t, x.production p t⟩

/-- Modelled from the spec (section 4.4): transport rows, one per lane and
period, with trips rounded up from shipment over the unit-load size. -/
def transport_rows (d : PlanningData) (plantName : Fin d.nPlants → String)
    (periodName : Fin d.nPeriods → String) (modeName : Fin d.nLanes → String)
    (unitLoad : ℚ) (x : Plan d) : List TransportRow :=
  (List.finRange d.nLanes).flatMap fun l =>
    (List.finRange d.nPeriods).map fun t =>
      ⟨plantName (d.laneOrigin l), plantName (d.laneDest l), modeName l,
       periodName t, x.shipment l t, ⌈x.shipment l t / unitLoad⌉⟩

/-- Modelled from the spec (section 4.4): inventory rows, one per plant and
period. -/
def inventory_rows (d : PlanningData) (plantName : Fin d.nPlants → String)
    (periodName : Fin d.nPeriods → String) (x : Plan d) :
    List InventoryRow :=
  (List.finRange d.nPlants).flatMap fun p =>
    (List.finRange d.nPeriods).map fun t =>
      ⟨plantName p, periodName t, x.inventory p t⟩

/-- A pandas DataFrame, modelled as its list of rows. -/
structure DataFrame (α : Type) where
  rows : List α
deriving DecidableEq, Repr

/-- Embedded from src/ui/optimization_results.py, rows_to_df helper: an
empty row list yields an empty DataFrame, otherwise the DataFrame of the
rows. -/
def rows_to_df {α : Type} (rows : List α) : DataFrame α :=
  if rows.isEmpty then ⟨[]⟩ else ⟨rows⟩

/-- The optimization mode selected on the run page. -/
inductive OptMode where
  | Deterministic
  | Stochastic
  | Robust
deriving DecidableEq, Repr

/-- The optimization_type string saved with a run, embedded from
src/ui/optimization_run.py. -/
def modeString : OptMode → String
  | .Deterministic => "deterministic"
  | .Stochastic => "stochastic"
  | .Robust => "robust"

/-- The record handed to save_optimization_run, embedded from
src/ui/optimization_run.py (the fields the claims are about). -/
structure SavedRun where
  status : String
  message : String
  objective_value : ℚ
  cost_breakdown : List (String × ℚ)
  production_df : Option (List ProductionRow)
  transport_df : Option (List TransportRow)
  inventory_df : Option (List InventoryRow)
  optimization_type : String
deriving DecidableEq, Repr

/-- The parsed results record consumed by the run page. -/
structure ParsedResults where
  objective_value : ℚ
  cost_breakdown : List (String × ℚ)
  production_rows : List ProductionRow
  transport_rows : List TransportRow
  inventory_rows : List InventoryRow
deriving DecidableEq, Repr

/-- Embedded from src/ui/optimization_run.py lines 168-181 and 346-363: the
run record saved when the outcome is not ok — status failed, the outcome
message, objective 0.0, a cost breakdown holding only production, transport
and holding at 0.0, and no tables. -/
def failedRun (typ : String) (o : Outcome) : SavedRun :=
  ⟨"failed", o.message, 0,
   [("production", 0), ("transport", 0), ("holding", 0)],
   none, none, none, typ⟩

/-- Embedded from src/ui/optimization_run.py: the run record saved on a
successful solve. -/
def successRun (typ : String) (o : Outcome) (r : ParsedResults) : SavedRun :=
  ⟨"success", o.message, r.objective_value, r.cost_breakdown,
   some r.production_rows, some r.transport_rows, some r.inventory_rows, typ⟩

/-- The names bound at module level in src/ui/optimization_run.py: its
imports (lines 17-39) and its two function definitions.  The module never
imports pandas, so the name pd is not among them. -/
def optimizationRunBindings : List String :=
  ["annotations", "List", "st",
   "require_authentication", "require_role",
   "load_feasible_excel_data", "build_feasible_model",
   "load_simple_feasible_data", "build_simple_feasible_model",
   "parse_simple_results", "parse_results",
   "SolverConfig", "solve_model",
   "DemandScenario", "generate_demand_scenarios",
   "build_stochastic_model", "build_robust_model",
   "parse_uncertainty_results", "get_scenarios_for_optimization",
   "audit_log", "save_optimization_run", "get_all_demands",
   "get_available_months", "render_optimization_run"]

/-- Python name resolution for the result-display step embedded from
src/ui/optimization_run.py lines 253-260: evaluating the pd.DataFrame call
succeeds only if the name pd is bound in the module; otherwise Python raises
NameError. -/
def displayResultsStep (bindings : List String) : Except String Unit :=
  if "pd" ∈ bindings then .ok ()
  else .error "NameError: name pd is not defined"

/-- The display error (if any) produced by the result-display step. -/
def displayErrorOf (bindings : List String) : Option String :=
  match displayResultsStep bindings with
  | .ok _ => none
  | .error e => some e

/-- Observable trace of one press of the Run Optimization button: how many
times the solver was invoked, which run records were saved, whether a
ConfigurationError propagated, and whether the display step raised. -/
structure RunTrace where
  solverCalls : ℕ
  saved : List SavedRun
  configError : Option String
  displayError : Option String
deriving DecidableEq, Repr

/-- The external inputs of one run: the base demand series and configured
scenarios, the outcome the solver orchestrator returns when invoked, the
parsed results, and the persistence response. -/
structure RunEnv where
  base : List ℚ
  scens : List DemandScenario
  outcome : Outcome
  results : ParsedResults
  saveOk : Bool
  runId : Option String

/-- Embedded from src/ui/optimization_run.py, render_optimization_run run
branch: the deterministic path solves, saves a failed record and returns on
a not-ok outcome, otherwise saves a success record and, when the save
returned a run id, executes the result-display step; the stochastic and
robust paths first call generate_demand_scenarios, and a ConfigurationError
there propagates before any solver invocation — nothing is saved, no
deterministic solve is attempted, and there is no retry. -/
def runFlow (mode : OptMode) (env : RunEnv) : RunTrace :=
  match mode with
  | .Deterministic =>
    if env.outcome.ok then
      if env.saveOk && env.runId.isSome then
        ⟨1, [successRun "deterministic" env.outcome env.results], none,
         displayErrorOf optimizationRunBindings⟩
      else
        ⟨1, [successRun "deterministic" env.outcome env.results], none, none⟩
    else
      ⟨1, [failedRun "deterministic" env.outcome], none, none⟩
  | m =>
    match generate_demand_scenarios env.base env.scens with
    | .error e => ⟨0, [], some e, none⟩
    | .ok _ =>
      if env.outcome.ok then
        ⟨1, [successRun (modeString m) env.outcome env.results], none, none⟩
      else
        ⟨1, [failedRun (modeString m) env.outcome], none, none⟩

/-- Helper: the Outcome assembled for a termination condition is ok exactly
for Optimal and FeasibleSuboptimal, and carries a nonempty message when it is
not ok. -/
theorem mkOutcome_spec (name : String) (tc : TermCond) :
    ((mkOutcome name tc).ok = true ↔
      tc = .Optimal ∨ tc = .FeasibleSuboptimal)
    ∧ ((mkOutcome name tc).ok = false → (mkOutcome name tc).message ≠ "") := by
  cases tc <;> simp [mkOutcome, okOf, messageOf]

/-- C2: for every model environment and solver configuration, solve_model
returns a total Outcome value (raw unavailability and raised exceptions are
caught by runAttempt and classified as SolverError, so Infeasible, Unbounded
and SolverError terminations never propagate as exceptions); the Outcome is
ok exactly when the termination condition is Optimal or FeasibleSuboptimal
(the latter only ever produced with a usable incumbent), and when it is not
ok it carries a nonempty human-readable message, so callers can branch on
ok. -/
theorem solve_outcome_contract (env : String → RawAttempt)
    (cfg : SolverConfig) :
    ((solve_model env cfg).1.ok = true ↔
      (solve_model env cfg).1.termination_condition = .Optimal ∨
        (solve_model env cfg).1.termination_condition = .FeasibleSuboptimal)
    ∧ ((solve_model env cfg).1.ok = false →
        (solve_model env cfg).1.message ≠ "") := by
  simp only [solve_model]
  split
  · exact mkOutcome_spec cfg.fallback_solver _
  · exact mkOutcome_spec cfg.solver_name _

/-- Witness for C2 at a concrete environment whose solver reports an
infeasible model: the outcome is not ok and the message is nonempty. -/
theorem solve_outcome_contract_witness :
    (solve_model (fun _ => RawAttempt.infeasible)
        ⟨"cbc", "glpk", 60, none⟩).1.ok = false ∧
    (solve_model (fun _ => RawAttempt.infeasible)
        ⟨"cbc", "glpk", 60, none⟩).1.message ≠ "" :=
  ⟨rfl, (solve_outcome_contract (fun _ => RawAttempt.infeasible)
    ⟨"cbc", "glpk", 60, none⟩).2 rfl⟩

/-- C4: the attempt list always ends with the solver recorded in
solver_used; and when the requested solver comes back as SolverError (which
covers a solver failure, an unavailable solver and a caught exception) and
the fallback attempt also fails, the outcome is not ok, exactly the two
configured solvers were attempted in order — one fallback retry, no more —
and solver_used records the fallback, the solver that ran last. -/
theorem solver_fallback_bounded (env : String → RawAttempt)
    (cfg : SolverConfig) :
    ((solve_model env cfg).2.getLast? =
      some (solve_model env cfg).1.solver_used)
    ∧ (runAttempt env cfg.solver_name = .SolverError →
        okOf (runAttempt env cfg.fallback_solver) = false →
        (solve_model env cfg).1.ok = false ∧
          (solve_model env cfg).2 = [cfg.solver_name, cfg.fallback_solver] ∧
          (solve_model env cfg).1.solver_used = cfg.fallback_solver) := by
  constructor
  · simp only [solve_model]
    split <;> simp [mkOutcome]
  · intro h1 h2
    have hm : solve_model env cfg =
        (mkOutcome cfg.fallback_solver (runAttempt env cfg.fallback_solver),
         [cfg.solver_name, cfg.fallback_solver]) := by
      simp [solve_model, h1]
    rw [hm]
    exact ⟨h2, rfl, rfl⟩

/-- Witness for C4: a configuration whose requested solver is unavailable and
whose fallback is also unavailable fails after exactly one fallback attempt,
with solver_used naming the fallback. -/
theorem solver_fallback_bounded_witness :
    (solve_model (fun _ => RawAttempt.unavailable)
        ⟨"cbc", "glpk", 60, none⟩).1.ok = false ∧
    (solve_model (fun _ => RawAttempt.unavailable)
        ⟨"cbc", "glpk", 60, none⟩).2 = ["cbc", "glpk"] ∧
    (solve_model (fun _ => RawAttempt.unavailable)
        ⟨"cbc", "glpk", 60, none⟩).1.solver_used = "glpk" :=
  (solver_fallback_bounded (fun _ => RawAttempt.unavailable)
    ⟨"cbc", "glpk", 60, none⟩).2 rfl rfl

/-- Helper: ratAbs agrees with the mathematical absolute value. -/
theorem ratAbs_eq_abs (q : ℚ) : ratAbs q = |q| := by
  unfold ratAbs
  split_ifs with h
  · exact (abs_of_neg h).symm
  · exact (abs_of_nonneg (not_lt.mp h)).symm

/-- Helper: the scenario generator fails exactly when the probabilities miss
1 by more than the tolerance or some multiplier is negative. -/
theorem generate_fails_iff (base : List ℚ) (scens : List DemandScenario) :
    exceptOk (generate_demand_scenarios base scens) = false ↔
      probTol < ratAbs ((scens.map (fun s => s.probability)).sum - 1) ∨
        ∃ s ∈ scens, s.demand_multiplier < 0 := by
  simp only [generate_demand_scenarios]
  split_ifs with h1 h2
  · exact iff_of_true rfl (Or.inl h1)
  · refine iff_of_true rfl (Or.inr ?_)
    rcases List.any_eq_true.mp h2 with ⟨s, hs, hlt⟩
    exact ⟨s, hs, by simpa using hlt⟩
  · refine iff_of_false (by simp [exceptOk]) ?_
    rintro (h | ⟨s, hs, hlt⟩)
    · exact h1 h
    · exact h2 (List.any_eq_true.mpr ⟨s, hs, by simpa using hlt⟩)

/-- Helper: on success the scenario generator returns the base series scaled
by each multiplier, with the identically indexed probability vector. -/
theorem generate_ok_shape (base : List ℚ) (scens : List DemandScenario)
    (r : ScenarioData) (hr : generate_demand_scenarios base scens = .ok r) :
    r.series =
      scens.map (fun s => base.map (fun q => s.demand_multiplier * q)) ∧
    r.probability = scens.map (fun s => s.probability) := by
  simp only [generate_demand_scenarios] at hr
  split_ifs at hr
  cases hr
  exact ⟨rfl, rfl⟩

/-- C3: the scenario generator fails with a ConfigurationError exactly when
the probabilities do not sum to 1 within the tolerance 1e-6 or some demand
multiplier is negative, and otherwise produces the per-scenario demand
series obtained by scaling the base series with each multiplier. -/
theorem scenario_generator_contract (base : List ℚ)
    (scens : List DemandScenario) :
    (exceptOk (generate_demand_scenarios base scens) = false ↔
      probTol < ratAbs ((scens.map (fun s => s.probability)).sum - 1) ∨
        ∃ s ∈ scens, s.demand_multiplier < 0)
    ∧ (∀ r, generate_demand_scenarios base scens = .ok r →
        r.series =
          scens.map (fun s => base.map (fun q => s.demand_multiplier * q)) ∧
        r.probability = scens.map (fun s => s.probability)) :=
  ⟨generate_fails_iff base scens,
   fun r hr => generate_ok_shape base scens r hr⟩

/-- A two-scenario set whose probabilities sum to 0.8. -/
def scensBad : List DemandScenario :=
  [⟨"Low", 2/5, 1⟩, ⟨"High", 2/5, 1⟩]

/-- A valid one-scenario set with multiplier 2. -/
def scensNormal : List DemandScenario := [⟨"Normal", 1, 2⟩]

/-- Helper: the 0.8 probability sum misses 1 by more than the tolerance. -/
theorem scensBad_prob_off :
    probTol < ratAbs ((scensBad.map (fun s => s.probability)).sum - 1) := by
  norm_num [scensBad, probTol, ratAbs]

/-- Helper: the valid set generates the scaled series concretely. -/
theorem scensNormal_ok :
    generate_demand_scenarios [100] scensNormal =
      .ok ⟨["Normal"], [1], [[200]]⟩ := by
  norm_num [generate_demand_scenarios, scensNormal, probTol, ratAbs]

/-- Witness for C3: the set with probability sum 0.8 is rejected, and the
valid one-scenario set with multiplier 2 yields the scaled series. -/
theorem scenario_generator_contract_witness :
    exceptOk (generate_demand_scenarios [100] scensBad) = false ∧
    ((⟨["Normal"], [1], [[200]]⟩ : ScenarioData).series =
        scensNormal.map
          (fun s => [(100 : ℚ)].map (fun q => s.demand_multiplier * q)) ∧
      (⟨["Normal"], [1], [[200]]⟩ : ScenarioData).probability =
        scensNormal.map (fun s => s.probability)) :=
  ⟨(scenario_generator_contract [100] scensBad).1.mpr
      (Or.inl scensBad_prob_off),
   (scenario_generator_contract [100] scensNormal).2
     ⟨["Normal"], [1], [[200]]⟩ scensNormal_ok⟩

/-- Helper: a flatMap over the index range of an empty index set is empty. -/
theorem flatMap_finRange_zero {α : Type} {n : ℕ} (h : n = 0)
    (f : Fin n → List α) : (List.finRange n).flatMap f = [] := by
  subst h
  rfl

/-- C8: when the decision sets are empty — zero plants and zero lanes —
result extraction yields empty row lists and the tabular conversion taken
from the source turns them into empty data frames; both are total functions,
so no error is possible. -/
theorem empty_decision_sets_empty_tables (d : PlanningData)
    (plantName : Fin d.nPlants → String)
    (periodName : Fin d.nPeriods → String)
    (modeName : Fin d.nLanes → String) (unitLoad : ℚ) (x : Plan d)
    (hp : d.nPlants = 0) (hl : d.nLanes = 0) :
    production_rows d plantName periodName x = [] ∧
    transport_rows d plantName periodName modeName unitLoad x = [] ∧
    inventory_rows d plantName periodName x = [] ∧
    rows_to_df (production_rows d plantName periodName x) = ⟨[]⟩ ∧
    rows_to_df (transport_rows d plantName periodName modeName unitLoad x) =
      ⟨[]⟩ ∧
    rows_to_df (inventory_rows d plantName periodName x) = ⟨[]⟩ := by
  have h1 : production_rows d plantName periodName x = [] :=
    flatMap_finRange_zero hp _
  have h2 : transport_rows d plantName periodName modeName unitLoad x = [] :=
    flatMap_finRange_zero hl _
  have h3 : inventory_rows d plantName periodName x = [] :=
    flatMap_finRange_zero hp _
  refine ⟨h1, h2, h3, ?_, ?_, ?_⟩ <;> simp [h1, h2, h3, rows_to_df]

/-- A degenerate planning instance: no plants, no lanes, one period, zero
demand, penalty weight 1. -/
abbrev emptyData : PlanningData :=
  ⟨0, 1, 0, Fin.elim0, Fin.elim0, Fin.elim0, Fin.elim0, Fin.elim0, Fin.elim0,
   Fin.elim0, Fin.elim0, fun _ => 0, 1⟩

/-- The all-zero plan on the degenerate instance. -/
abbrev emptyPlan : Plan emptyData :=
  ⟨Fin.elim0, Fin.elim0, Fin.elim0, Fin.elim0, fun _ => 0⟩

/-- Witness for C8 on the degenerate zero-plant, zero-lane instance. -/
theorem empty_decision_sets_empty_tables_witness :
    production_rows emptyData Fin.elim0 (fun _ => "Jan") emptyPlan = [] ∧
    transport_rows emptyData Fin.elim0 (fun _ => "Jan") Fin.elim0 1
      emptyPlan = [] ∧
    inventory_rows emptyData Fin.elim0 (fun _ => "Jan") emptyPlan = [] ∧
    rows_to_df (production_rows emptyData Fin.elim0 (fun _ => "Jan")
      emptyPlan) = ⟨[]⟩ ∧
    rows_to_df (transport_rows emptyData Fin.elim0 (fun _ => "Jan")
      Fin.elim0 1 emptyPlan) = ⟨[]⟩ ∧
    rows_to_df (inventory_rows emptyData Fin.elim0 (fun _ => "Jan")
      emptyPlan) = ⟨[]⟩ :=
  empty_decision_sets_empty_tables emptyData Fin.elim0 (fun _ => "Jan")
    Fin.elim0 1 emptyPlan rfl rfl

/-- Helper: the name pd is not bound at module level in the run page. -/
theorem pd_not_bound : "pd" ∉ optimizationRunBindings := by
  simp [optimizationRunBindings]

/-- Helper: therefore the result-display step produces a NameError. -/
theorem displayError_pd :
    displayErrorOf optimizationRunBindings =
      some "NameError: name pd is not defined" := by
  simp only [displayErrorOf, displayResultsStep]
  rw [if_neg pd_not_bound]

/-- C9: the module behind the run page never imports pandas, so the name pd
is unbound at module level, and on the deterministic success path — solve
ok, run saved with a run id — the result-display step raises NameError
instead of rendering the cost breakdown and tables. -/
theorem deterministic_display_nameerror (env : RunEnv)
    (hok : env.outcome.ok = true) (hsave : env.saveOk = true)
    (hid : env.runId.isSome = true) :
    "pd" ∉ optimizationRunBindings ∧
    (runFlow .Deterministic env).displayError =
      some "NameError: name pd is not defined" := by
  constructor
  · exact pd_not_bound
  · have hflow : runFlow .Deterministic env =
        ⟨1, [successRun "deterministic" env.outcome env.results], none,
         displayErrorOf optimizationRunBindings⟩ := by
      unfold runFlow
      rw [hok, hsave, hid]
      rfl
    rw [hflow]
    exact displayError_pd

/-- Witness for C9 at a concrete successful, saved deterministic run. -/
theorem deterministic_display_nameerror_witness :
    "pd" ∉ optimizationRunBindings ∧
    (runFlow .Deterministic
        ⟨[], [], mkOutcome "cbc" .Optimal, ⟨0, [], [], [], []⟩, true,
         some "run-1"⟩).displayError =
      some "NameError: name pd is not defined" :=
  deterministic_display_nameerror
    ⟨[], [], mkOutcome "cbc" .Optimal, ⟨0, [], [], [], []⟩, true,
     some "run-1"⟩ rfl rfl rfl

/-- C10: whenever the solve outcome is not ok — in deterministic, stochastic
or robust mode (for the latter two, after scenario generation succeeded) —
the page saves exactly one run record with status failed, the outcome
message, objective value 0.0, a cost breakdown holding only the keys
production, transport and holding all at 0.0, and no production, transport
or inventory tables, and then returns with nothing else happening. -/
theorem failed_solve_persists_failed_run (mode : OptMode) (env : RunEnv)
    (hfail : env.outcome.ok = false)
    (hgen : mode = .Deterministic ∨
      exceptOk (generate_demand_scenarios env.base env.scens) = true) :
    runFlow mode env =
      ⟨1, [⟨"failed", env.outcome.message, 0,
            [("production", 0), ("transport", 0), ("holding", 0)],
            none, none, none, modeString mode⟩], none, none⟩ := by
  cases mode with
  | Deterministic =>
    unfold runFlow
    rw [hfail]
    rfl
  | Stochastic =>
    rcases hgen with h | h
    · exact absurd h (by decide)
    · cases hr : generate_demand_scenarios env.base env.scens with
      | error e => rw [hr] at h; cases h
      | ok r =>
        unfold runFlow
        rw [hr, hfail]
        rfl
  | Robust =>
    rcases hgen with h | h
    · exact absurd h (by decide)
    · cases hr : generate_demand_scenarios env.base env.scens with
      | error e => rw [hr] at h; cases h
      | ok r =>
        unfold runFlow
        rw [hr, hfail]
        rfl

/-- Witness for C10: a stochastic run with a valid scenario set and an
infeasible outcome persists the failed record. -/
theorem failed_solve_persists_failed_run_witness :
    runFlow .Stochastic
        ⟨[100], scensNormal, mkOutcome "cbc" .Infeasible,
         ⟨0, [], [], [], []⟩, false, none⟩ =
      ⟨1, [⟨"failed", (mkOutcome "cbc" TermCond.Infeasible).message, 0,
            [("production", 0), ("transport", 0), ("holding", 0)],
            none, none, none, modeString .Stochastic⟩], none, none⟩ :=
  failed_solve_persists_failed_run .Stochastic
    ⟨[100], scensNormal, mkOutcome "cbc" .Infeasible,
     ⟨0, [], [], [], []⟩, false, none⟩
    rfl (Or.inr (by rw [scensNormal_ok]; rfl))

/-- C7: in stochastic or robust mode, a bad scenario configuration —
probabilities off by more than the tolerance (which covers an empty scenario
set, whose probabilities sum to 0) or a negative multiplier — makes scenario
generation raise a ConfigurationError, and the run stops there: the solver
is never invoked, no run record is saved (in particular the run is not
downgraded to a deterministic solve), and nothing is retried. -/
theorem config_error_before_solver (mode : OptMode) (env : RunEnv)
    (hmode : mode ≠ .Deterministic)
    (hbad : probTol < ratAbs ((env.scens.map (fun s => s.probability)).sum - 1)
      ∨ ∃ s ∈ env.scens, s.demand_multiplier < 0) :
    ∃ e, generate_demand_scenarios env.base env.scens = .error e ∧
      runFlow mode env = ⟨0, [], some e, none⟩ := by
  have hfail : exceptOk (generate_demand_scenarios env.base env.scens) =
      false := (generate_fails_iff env.base env.scens).mpr hbad
  cases hr : generate_demand_scenarios env.base env.scens with
  | ok r => rw [hr] at hfail; cases hfail
  | error e =>
    refine ⟨e, rfl, ?_⟩
    cases mode with
    | Deterministic => exact absurd rfl hmode
    | Stochastic =>
      unfold runFlow
      rw [hr]
    | Robust =>
      unfold runFlow
      rw [hr]

/-- Witness for C7: a robust run with zero configured scenarios raises a
ConfigurationError with no solver call and nothing saved. -/
theorem config_error_before_solver_witness :
    ∃ e, generate_demand_scenarios [100] ([] : List DemandScenario) =
        .error e ∧
      runFlow .Robust
          ⟨[100], [], mkOutcome "cbc" .Optimal, ⟨0, [], [], [], []⟩, true,
           none⟩ =
        ⟨0, [], some e, none⟩ :=
  config_error_before_solver .Robust
    ⟨[100], [], mkOutcome "cbc" .Optimal, ⟨0, [], [], [], []⟩, true, none⟩
    (by decide) (Or.inl (by norm_num [probTol, ratAbs]))

/-- The all-idle plan: produce, ship and serve nothing, keep the initial
inventory, and take the whole demand as shortfall. -/
def idlePlan (d : PlanningData) : Plan d :=
  ⟨fun _ _ => 0, fun _ _ => 0, fun p _ => d.initInv p, fun _ _ => 0,
   fun t => d.demand t⟩

/-- Helper: with non-negative capacities, lane capacities, initial inventory
and demand, the all-idle plan is feasible for any demand series bounded the
same way — the shortfall variables absorb the whole demand. -/
theorem idlePlan_feasibleFor (d : PlanningData)
    (hcap : ∀ p, 0 ≤ d.capacity p)
    (hlcap : ∀ l, ∀ c ∈ d.laneCap l, 0 ≤ c)
    (hinv : ∀ p, 0 ≤ d.initInv p) (hdem : ∀ t, 0 ≤ d.demand t) :
    detFeasible d (idlePlan d) := by
  refine ⟨?_, ?_, ?_, ?_, ?_, ?_, ?_, ?_, ?_⟩
  · intro p t
    simp [idlePlan, prevInv, inboundAt, outboundAt]
  · intro p t
    simpa [idlePlan] using hcap p
  · intro l t c hc
    simpa [idlePlan] using hlcap l c hc
  · intro p t
    simp [idlePlan]
  · intro l t
    simp [idlePlan]
  · intro p t
    simpa [idlePlan] using hinv p
  · intro p t
    simp [idlePlan]
  · intro t
    simpa [idlePlan] using hdem t
  · intro t
    simp [idlePlan]

/-- C1: for Planning Data with non-negative costs, capacities and quantities
(initial inventory and demand, per the data-model invariant that all
quantities are non-negative), the deterministic model is feasible — the
all-idle plan with full shortfall satisfies every constraint — so no sound
solver classification of the built model can report Infeasible, whatever the
demand is relative to network capacity. -/
theorem deterministic_never_infeasible (d : PlanningData)
    (hprod : ∀ p, 0 ≤ d.prodCost p) (hhold : ∀ p, 0 ≤ d.holdCost p)
    (htrans : ∀ l, 0 ≤ d.transCost l) (hpen : 0 ≤ d.penalty)
    (hcap : ∀ p, 0 ≤ d.capacity p)
    (hlcap : ∀ l, ∀ c ∈ d.laneCap l, 0 ≤ c)
    (hinv : ∀ p, 0 ≤ d.initInv p) (hdem : ∀ t, 0 ≤ d.demand t) :
    detFeasible d (idlePlan d) ∧
    ∀ rep : PlanningData → TermCond, InfeasibleSound rep →
      rep d ≠ .Infeasible := by
  have hfeas : detFeasible d (idlePlan d) :=
    idlePlan_feasibleFor d hcap hlcap hinv hdem
  refine ⟨hfeas, ?_⟩
  intro rep hsound hinf
  exact hsound d hinf ⟨idlePlan d, hfeas⟩

/-- A classifier that always answers Optimal; it is trivially sound for
infeasibility. -/
def constOptimal : PlanningData → TermCond := fun _ => .Optimal

/-- Witness for C1 on the degenerate instance, with the always-Optimal sound
classifier. -/
theorem deterministic_never_infeasible_witness :
    detFeasible emptyData (idlePlan emptyData) ∧
    constOptimal emptyData ≠ TermCond.Infeasible :=
  ⟨(deterministic_never_infeasible emptyData
      (fun p => p.elim0) (fun p => p.elim0) (fun l => l.elim0) (by norm_num)
      (fun p => p.elim0) (fun l => l.elim0) (fun p => p.elim0)
      (fun t => le_refl 0)).1,
   (deterministic_never_infeasible emptyData
      (fun p => p.elim0) (fun p => p.elim0) (fun l => l.elim0) (by norm_num)
      (fun p => p.elim0) (fun l => l.elim0) (fun p => p.elim0)
      (fun t => le_refl 0)).2
     constOptimal (fun _ h => nomatch h)⟩

/-- C6: for a feasible (solved) plan and non-negative unit costs and penalty
weight, the cost breakdown is a mapping with exactly the keys production,
transport, holding and demand_penalty, each component — re-evaluated from
the cost terms at the solved variable values, which is how cost_breakdown is
defined — is non-negative, and the components sum exactly (hence within any
floating tolerance) to the objective value planCost. -/
theorem cost_breakdown_contract (d : PlanningData) (x : Plan d)
    (hprod : ∀ p, 0 ≤ d.prodCost p) (htrans : ∀ l, 0 ≤ d.transCost l)
    (hhold : ∀ p, 0 ≤ d.holdCost p) (hpen : 0 ≤ d.penalty)
    (hx : detFeasible d x) :
    (cost_breakdown d x).map Prod.fst =
      ["production", "transport", "holding", "demand_penalty"] ∧
    (∀ kv ∈ cost_breakdown d x, 0 ≤ kv.2) ∧
    ((cost_breakdown d x).map Prod.snd).sum = planCost d x := by
  obtain ⟨hbal, hcap2, hlc, hpn, hsn, hin, hsv, hsf, hdm⟩ := hx
  have h1 : 0 ≤ productionCostOf d x :=
    Finset.sum_nonneg fun p _ => Finset.sum_nonneg fun t _ =>
      mul_nonneg (hprod p) (hpn p t)
  have h2 : 0 ≤ transportCostOf d x :=
    Finset.sum_nonneg fun l _ => Finset.sum_nonneg fun t _ =>
      mul_nonneg (htrans l) (hsn l t)
  have h3 : 0 ≤ holdingCostOf d x :=
    Finset.sum_nonneg fun p _ => Finset.sum_nonneg fun t _ =>
      mul_nonneg (hhold p) (hin p t)
  have h4 : 0 ≤ penaltyCostOf d x :=
    mul_nonneg hpen (Finset.sum_nonneg fun t _ => hsf t)
  refine ⟨rfl, ?_, ?_⟩
  · intro kv hkv
    simp only [cost_breakdown, List.mem_cons, List.not_mem_nil, or_false]
      at hkv
    rcases hkv with h | h | h | h <;> subst h
    · exact h1
    · exact h2
    · exact h3
    · exact h4
  · simp only [cost_breakdown, List.map_cons, List.map_nil, List.sum_cons,
      List.sum_nil, planCost]
    ring

/-- Witness for C6 on the degenerate instance with the all-idle plan. -/
theorem cost_breakdown_contract_witness :
    (cost_breakdown emptyData (idlePlan emptyData)).map Prod.fst =
      ["production", "transport", "holding", "demand_penalty"] ∧
    0 ≤ (("production",
      productionCostOf emptyData (idlePlan emptyData)) : String × ℚ).2 ∧
    ((cost_breakdown emptyData (idlePlan emptyData)).map Prod.snd).sum =
      planCost emptyData (idlePlan emptyData) := by
  obtain ⟨hk, hnn, hs⟩ := cost_breakdown_contract emptyData
    (idlePlan emptyData)
    (fun p => p.elim0) (fun l => l.elim0) (fun p => p.elim0) (by norm_num)
    (idlePlan_feasibleFor emptyData (fun p => p.elim0) (fun l => l.elim0)
      (fun p => p.elim0) (fun t => le_refl 0))
  exact ⟨hk, hnn _ (by simp [cost_breakdown]), hs⟩

/-- C5: for one Planning Data and one scenario set (non-negative
probabilities summing to 1), the optimal objective values of the three
formulations are ordered: the optimal robust WorstCaseCost w is at least the
optimal stochastic expected cost, which is at least the smallest per-scenario
deterministic optimal cost. -/
theorem formulation_cost_ordering (d : PlanningData) {S : ℕ}
    (prob mult : Fin S → ℚ) (xR : ScenPlan d S) (w : ℚ) (xS : ScenPlan d S)
    (xD : Fin S → Plan d)
    (hne : (Finset.univ : Finset (Fin S)).Nonempty)
    (hp : ∀ s, 0 ≤ prob s) (hsum : ∑ s, prob s = 1)
    (hR : robustOptimal d mult xR w)
    (hS : stochOptimal d prob mult xS)
    (hD : ∀ s, optimalFor d (scenDemand d mult s) (xD s)) :
    stochCost d prob xS ≤ w ∧
    Finset.univ.inf' hne (fun s => planCost d (xD s)) ≤
      stochCost d prob xS := by
  obtain ⟨⟨hRfeas, hRbound⟩, hRmin⟩ := hR
  obtain ⟨hSfeas, hSmin⟩ := hS
  constructor
  · have h1 : stochCost d prob xS ≤ stochCost d prob xR := hSmin xR hRfeas
    have hb : stochCost d prob xR ≤ ∑ s, prob s * w :=
      Finset.sum_le_sum fun s _ =>
        mul_le_mul_of_nonneg_left (hRbound s) (hp s)
    have hw : (∑ s, prob s * w) = w := by
      rw [← Finset.sum_mul, hsum, one_mul]
    exact le_trans h1 (le_trans hb (le_of_eq hw))
  · have hkey : ∀ s, (Finset.univ.inf' hne fun s => planCost d (xD s)) ≤
        costUnder d xS s := by
      intro s
      have h4 : planCost d (xD s) ≤ planCost d (toPlan xS s) :=
        (hD s).2 (toPlan xS s) (hSfeas s)
      exact le_trans (Finset.inf'_le _ (Finset.mem_univ s)) h4
    have hc : (Finset.univ.inf' hne fun s => planCost d (xD s)) =
        ∑ s, prob s * (Finset.univ.inf' hne fun s => planCost d (xD s)) := by
      rw [← Finset.sum_mul, hsum, one_mul]
    rw [hc]
    exact Finset.sum_le_sum fun s _ =>
      mul_le_mul_of_nonneg_left (hkey s) (hp s)

/-- The all-zero scenario plan on the degenerate instance with one
scenario. -/
abbrev emptyScenPlan : ScenPlan emptyData 1 :=
  ⟨Fin.elim0, Fin.elim0, fun _ => Fin.elim0, fun _ => Fin.elim0,
   fun _ _ => 0⟩

/-- Helper: the universe of the one-scenario index set is nonempty. -/
theorem finOneUnivNonempty : (Finset.univ : Finset (Fin 1)).Nonempty :=
  ⟨0, Finset.mem_univ 0⟩

/-- Helper: on the degenerate instance every plan that is feasible for an
all-zero demand series has total cost 0 — there are no plants or lanes, and
the demand balance forces every shortfall to 0. -/
theorem emptyData_cost_zero (dem : Fin emptyData.nPeriods → ℚ)
    (hdem : ∀ t, dem t = 0) (x : Plan emptyData)
    (h : FeasibleFor emptyData dem x) : planCost emptyData x = 0 := by
  obtain ⟨-, -, -, -, -, -, -, -, hbal⟩ := h
  have hsf : ∀ t, x.shortfall t = 0 := by
    intro t
    have hb := hbal t
    rw [hdem t] at hb
    simpa using hb
  simp [planCost, productionCostOf, transportCostOf, holdingCostOf,
    penaltyCostOf, hsf]

/-- Helper: each scenario demand series of the degenerate instance is 0. -/
theorem emptyScenDemand_zero (s : Fin 1) (t : Fin emptyData.nPeriods) :
    scenDemand emptyData (fun _ => (1 : ℚ)) s t = 0 := by
  simp [scenDemand]

/-- Helper: the all-zero scenario plan is scenario-feasible on the
degenerate instance. -/
theorem emptyScenPlan_feasible :
    scenFeasible emptyData (fun _ => (1 : ℚ)) emptyScenPlan := by
  intro s
  refine ⟨fun p => p.elim0, fun p => p.elim0, fun l => l.elim0,
    fun p => p.elim0, fun l => l.elim0, fun p => p.elim0, fun p => p.elim0,
    fun t => le_refl 0, fun t => ?_⟩
  simp [toPlan, scenDemand]

/-- Helper: the all-zero scenario plan costs 0 in every scenario. -/
theorem emptyScenPlan_cost (s : Fin 1) :
    costUnder emptyData emptyScenPlan s = 0 :=
  emptyData_cost_zero _ (emptyScenDemand_zero s) _ (emptyScenPlan_feasible s)

/-- Helper: any robust-feasible WorstCaseCost bound on the degenerate
instance is non-negative. -/
theorem emptyRobust_lb (y : ScenPlan emptyData 1) (w2 : ℚ)
    (h : robustFeasible emptyData (fun _ => (1 : ℚ)) y w2) : 0 ≤ w2 := by
  obtain ⟨hfeas, hbound⟩ := h
  have h0 : costUnder emptyData y 0 = 0 :=
    emptyData_cost_zero _ (emptyScenDemand_zero 0) _ (hfeas 0)
  have hb := hbound 0
  rw [h0] at hb
  exact hb

/-- Helper: every scenario-feasible plan on the degenerate instance has
expected cost 0. -/
theorem emptyStoch_cost (y : ScenPlan emptyData 1)
    (h : scenFeasible emptyData (fun _ => (1 : ℚ)) y) :
    stochCost emptyData (fun _ => (1 : ℚ)) y = 0 := by
  have h0 : costUnder emptyData y 0 = 0 :=
    emptyData_cost_zero _ (emptyScenDemand_zero 0) _ (h 0)
  simp [stochCost, h0]

/-- Helper: the all-idle plan is optimal for every scenario demand of the
degenerate instance. -/
theorem emptyIdle_optimal (s : Fin 1) :
    optimalFor emptyData (scenDemand emptyData (fun _ => (1 : ℚ)) s)
      (idlePlan emptyData) := by
  have hfeas : FeasibleFor emptyData
      (scenDemand emptyData (fun _ => (1 : ℚ)) s) (idlePlan emptyData) := by
    refine ⟨fun p => p.elim0, fun p => p.elim0, fun l => l.elim0,
      fun p => p.elim0, fun l => l.elim0, fun p => p.elim0, fun p => p.elim0,
      fun t => le_refl 0, fun t => ?_⟩
    simp [idlePlan, scenDemand]
  refine ⟨hfeas, ?_⟩
  intro y hy
  rw [emptyData_cost_zero _ (emptyScenDemand_zero s) y hy,
    emptyData_cost_zero _ (emptyScenDemand_zero s) _ hfeas]

/-- Witness for C5 on the degenerate one-scenario instance: all three
optimal values are 0 and the ordering holds with equalities. -/
theorem formulation_cost_ordering_witness :
    stochCost emptyData (fun _ => (1 : ℚ)) emptyScenPlan ≤ 0 ∧
    Finset.univ.inf' finOneUnivNonempty
        (fun _ => planCost emptyData (idlePlan emptyData)) ≤
      stochCost emptyData (fun _ => (1 : ℚ)) emptyScenPlan :=
  formulation_cost_ordering emptyData (fun _ => 1) (fun _ => 1) emptyScenPlan
    0 emptyScenPlan (fun _ => idlePlan emptyData) finOneUnivNonempty
    (fun _ => by norm_num) (by simp)
    ⟨⟨emptyScenPlan_feasible, fun s => le_of_eq (emptyScenPlan_cost s)⟩,
     fun y w2 h => emptyRobust_lb y w2 h⟩
    ⟨emptyScenPlan_feasible, fun y hy => by
      rw [emptyStoch_cost emptyScenPlan emptyScenPlan_feasible,
        emptyStoch_cost y hy]⟩
    (fun s => emptyIdle_optimal s)

end ORAdani
